import Mathlib

/-!
Shallow embedding of the `asp` ray-casting repository: the point, vector,
ray, plane, triangle and camera objects of `asp/objects.py`, the geometry
functions of `asp/math.py`, and the renderer of `asp/render.py`.

Coordinates are modelled over `ℚ`.  A Python statement whose evaluation
raises an exception that reaches the caller is modelled with `Except PyErr`:
a `.error` result is the exception escaping the function, and `do`
sequencing reproduces the early exit of exception propagation.
-/

namespace Asp

/-- Python exception classes raised by the code under study. -/
inductive PyErr where
  | nameError
  | indexError
  | typeError
  | attributeError
  | valueError
deriving DecidableEq

/-- A 3-component coordinate array (the `xyz` or `dir` arrays of the source). -/
structure Vec3 where
  x : ℚ
  y : ℚ
  z : ℚ
deriving DecidableEq

/-- Componentwise sum, as `numpy` array addition. -/
def Vec3.add (u v : Vec3) : Vec3 := ⟨u.x + v.x, u.y + v.y, u.z + v.z⟩

/-- Componentwise difference, as `numpy` array subtraction. -/
def Vec3.sub3 (u v : Vec3) : Vec3 := ⟨u.x - v.x, u.y - v.y, u.z - v.z⟩

/-- Cross product, as `np.cross` on 3-component arrays. -/
def Vec3.cross (u v : Vec3) : Vec3 :=
  ⟨u.y * v.z - u.z * v.y, u.z * v.x - u.x * v.z, u.x * v.y - u.y * v.x⟩

/-- Dot product, as `np.dot` on 3-component arrays. -/
def Vec3.dot (u v : Vec3) : ℚ := u.x * v.x + u.y * v.y + u.z * v.z

/-- Adding a scalar to a 3-component array broadcasts the scalar, as in
`numpy`. -/
def Vec3.addScalar (u : Vec3) (s : ℚ) : Vec3 := ⟨u.x + s, u.y + s, u.z + s⟩

/-- Model of `Point` (objects.py, lines 5-65): a wrapped coordinate triple.
`Point.__init__` merely stores `np.asarray(xyz).squeeze()`, which on a
3-element input is the input itself, so the constructor is total. -/
structure Point where
  xyz : Vec3
deriving DecidableEq

/-- Fields of a `Vector` object (objects.py, lines 68-105): a position plus
a direction.  `Vector.__init__` never completes (see `Vector.init` below),
so no such object is ever produced by the code; the functions below that
read these fields are modelled on an arbitrary field record. -/
structure VectorData where
  xyz : Vec3
  dir : Vec3
deriving DecidableEq

/-- Fields of a `Ray` object (objects.py, lines 108-149). -/
structure RayData where
  xyz : Vec3
  dir : Vec3
  value : ℚ
deriving DecidableEq

/-- Fields of a fully constructed `Triangle` object (objects.py, lines
229-251): the bound point list. -/
structure TriangleData where
  points : List Point
deriving DecidableEq

/-- The first three points of a plane or triangle object, which are all the
fields that `Plane.normal`, `inside` and `intersect` read. -/
structure PlaneData where
  p0 : Point
  p1 : Point
  p2 : Point
deriving DecidableEq

/-- Fields of a `Camera` object (objects.py, lines 254-274): orientation,
focal length, detector array size and pixel size. -/
structure CameraData where
  orient : VectorData
  focal : ℚ
  arraySize : Nat × Nat
  pixelSize : ℚ × ℚ
deriving DecidableEq

/-- Python list indexing `xs[i]`: raises `IndexError` when out of range. -/
def pyGet {α : Type} (xs : List α) (i : Nat) : Except PyErr α :=
  match xs.get? i with
  | some v => .ok v
  | none => .error .indexError

/-- Each reduction in `asp/math.py` loops with `for point in Points[1:]`.
The identifier `Points` is defined nowhere in that module, whose imports are
only `Point` and `Vector`, so evaluating the loop iterable raises
`NameError` on every call that reaches it. -/
def undefinedPointsName : Except PyErr (List Point) := .error .nameError

/-- Model of `add` (math.py, lines 5-19): reads `points[0].xyz` (raising
`IndexError` on an empty sequence), then fails on the undefined loop
iterable before any accumulation can happen.  The fold over the remaining
points, kept for structure, is unreachable. -/
def add (points : List Point) : Except PyErr Point := do
  let first ← pyGet points 0
  let rest ← undefinedPointsName
  let s := rest.foldl (fun acc q => Vec3.add acc q.xyz) first.xyz
  return Point.mk s

/-- Model of `sub` (math.py, lines 39-53), failing exactly as `add` does. -/
def sub (points : List Point) : Except PyErr Point := do
  let first ← pyGet points 0
  let rest ← undefinedPointsName
  let s := rest.foldl (fun acc q => Vec3.sub3 acc q.xyz) first.xyz
  return Point.mk s

/-- The local variable `norm` of the `Plane.normal` property body
(objects.py, line 202): the cross product of the two edge arrays out of
point 0.  This value is genuinely computed — the property fails only at the
following statement (see `Plane.normal` below).  The source goes on to form
`norm / np.linalg.norm(norm)`, a nonnegative real scaling not representable
over `ℚ`; the only theorem that uses this value tests orthogonality to a
ray direction, which is invariant under nonnegative scaling. -/
def Plane.normalDir (pl : PlaneData) : Vec3 :=
  Vec3.cross (Vec3.sub3 pl.p1.xyz pl.p0.xyz) (Vec3.sub3 pl.p2.xyz pl.p0.xyz)

/-- The call `Vector(norm / np.linalg.norm(norm))` (objects.py, line 203).
`Vector.__init__(self, xyz, dir)` has a required `dir` parameter; the call
passes a single positional argument, so CPython raises `TypeError` at
argument binding, before the initializer body runs (the argument expression
itself evaluates without exception — a zero norm yields `nan` entries, not
an error). -/
def vectorCallMissingDir : Except PyErr VectorData := .error .typeError

/-- Model of the `Plane.normal` property (objects.py, lines 178-205): on
first access it computes the two edge arrays and their cross product (the
local `norm`, see `Plane.normalDir`), then fails in the single-argument
`Vector` call, so every evaluation of the property raises `TypeError`. -/
def Plane.normal (pl : PlaneData) : Except PyErr VectorData := do
  let _norm := Plane.normalDir pl
  let v ← vectorCallMissingDir
  return v

/-- Attribute lookup `plane.get_coefficients` (math.py, line 95).  In the
source, `get_coefficients` is a `def` statement nested inside the body of
the `normal` property of `Plane` (objects.py, line 208), placed after its
`return` statement: the statement never executes, no attribute of that name
exists on `Plane` objects, and the lookup raises `AttributeError`. -/
def getCoefficientsLookup (_pl : PlaneData) : Except PyErr (Vec3 × ℚ) :=
  .error .attributeError

/-- The expression `(d - np.dot(abc, p)) / (abc, d)` (math.py, line 103)
divides a float by a tuple, which raises `TypeError`. -/
def divideByTuple (_q : ℚ) : Except PyErr ℚ := .error .typeError

/-- Model of `intersect` (math.py, lines 73-108).  The body fails at its
first statement; the remaining lines, kept for structure, are unreachable.
Note that even they depart from the documented algorithm: the divisor is
the tuple `(abc, d)` rather than `abc . dir`, and `q = p + t * d` adds the
broadcast scalar `t * d` to `p` instead of moving along the direction. -/
def intersect (vector : RayData) (plane : PlaneData) : Except PyErr Point := do
  let coeffs ← getCoefficientsLookup plane
  let abc := coeffs.1
  let d := coeffs.2
  let p := vector.xyz
  let t ← divideByTuple (d - Vec3.dot abc p)
  let q := Vec3.addScalar p (t * d)
  return Point.mk q

/-- Model of `inside` (math.py, lines 111-138).  The query point `point` is
not referenced anywhere in the body: the normal access and all six `sub`
calls take only the triangle object.  The first statement
`n = triangle.normal` raises `TypeError` (see `Plane.normal`), so the `sub`
calls (which would themselves raise `NameError`) and the edge tests, kept
for structure, are unreachable. -/
def inside (point : Point) (triangle : PlaneData) : Except PyErr Bool := do
  let n ← Plane.normal triangle
  let c0a ← sub [triangle.p1, triangle.p0]
  let c0b ← sub [triangle.p2, triangle.p0]
  let c0 := Vec3.cross c0a.xyz c0b.xyz
  let c1a ← sub [triangle.p0, triangle.p1]
  let c1b ← sub [triangle.p2, triangle.p1]
  let c1 := Vec3.cross c1a.xyz c1b.xyz
  let c2a ← sub [triangle.p0, triangle.p2]
  let c2b ← sub [triangle.p1, triangle.p2]
  let c2 := Vec3.cross c2a.xyz c2b.xyz
  return decide (0 ≤ Vec3.dot c0 n.xyz) && decide (0 ≤ Vec3.dot c1 n.xyz) &&
    decide (0 ≤ Vec3.dot c2 n.xyz)

/-- A `Vector` object divided in place by a float (math.py, lines 160-161:
`a /= np.linalg.norm(a.xyz)`).  `Vector` defines no division operator, so
the operation raises `TypeError` whatever the norm evaluates to. -/
def vectorDividedByNorm (_a : VectorData) : Except PyErr VectorData :=
  .error .typeError

/-- A 3 by 3 matrix as a list of rows. -/
abbrev Mat3 := List (List ℚ)

/-- Model of `rotation_matrix` (math.py, lines 141-173).  Both
normalization statements raise `TypeError`; the rest of the body, which
would apply `np.cross` and `np.dot` to `Vector` objects and `**` to a plain
Python list and is itself ill-typed, is unreachable and represented by the
final error. -/
def rotation_matrix (a b : VectorData) : Except PyErr Mat3 := do
  let _a2 ← vectorDividedByNorm a
  let _b2 ← vectorDividedByNorm b
  .error .typeError

/-- The call `super(C).__init__(args)` in the source constructors builds an
unbound super object and then invokes `super.__init__` on it directly.
CPython requires the first positional argument of `super.__init__` to be a
type; the constructors pass coordinate or point data instead, so the call
raises `TypeError` — it never delegates to the parent initializer. -/
def superUnboundInitArgNonType : Except PyErr Unit := .error .typeError

/-- Model of `Vector.__init__` (objects.py, lines 89-105): stores the `dir`
field on the fresh object, then fails in `super(Vector).__init__(xyz)`.
The position is never bound, the half-built object is discarded, and no
caller ever receives a `Vector`. -/
def Vector.init (xyz dir : Vec3) : Except PyErr VectorData := do
  let d := dir
  let _ ← superUnboundInitArgNonType
  return ⟨xyz, d⟩

/-- Model of `Ray.__init__` (objects.py, lines 131-149): stores the `value`
field, then fails in `super(Ray).__init__(xyz, dir)`. -/
def Ray.init (xyz dir : Vec3) (value : ℚ) : Except PyErr RayData := do
  let v := value
  let _ ← superUnboundInitArgNonType
  return ⟨xyz, dir, v⟩

/-- Model of `Triangle.__init__` (objects.py, lines 247-251): point lists
of length other than 3 are rejected with `ValueError` (the message in the
source says Triangle objects are defined by exactly 3 points), after which
`super(Triangle).__init__(points)` fails before the point list can be
bound. -/
def Triangle.init (points : List Point) : Except PyErr TriangleData := do
  if points.length ≠ 3 then
    throw PyErr.valueError
  let _ ← superUnboundInitArgNonType
  return ⟨points⟩

/-- Model of `np.arange(start, stop, step)` over `ℚ` for positive step: the
values `start + i * step` for `i` below the ceiling of
`(stop - start) / step`. -/
def arange (start stop step : ℚ) : List ℚ :=
  (List.range (Int.toNat ⌈(stop - start) / step⌉)).map
    (fun i => start + (i : ℚ) * step)

/-- The call `Ray(xyz=self.orient.xyz, point=xyz)` (objects.py, line 286):
`Ray.__init__` has parameters `(self, xyz, dir, value)`, so the keyword
argument `point` is unexpected and the call raises `TypeError` before the
initializer body runs. -/
def rayCallPointKeyword (_xyz : Vec3) (_point : List ℚ) : Except PyErr RayData :=
  .error .typeError

/-- Model of `Camera.rays` (objects.py, lines 276-292).  `gridX`, `gridY`
and `gridZ` are the raveled coordinate grids of `np.meshgrid(x, y, focal)`,
and `XYZ` is the 3-element list `[X, Y, Z]` of whole coordinate arrays, not
a list of per-pixel triples.  The comprehension then calls `Ray` with the
unexpected keyword `point` and fails on the first of the 3 elements.  The
subsequent rotation lines are unreachable (and would themselves fail:
`rotate` does not exist in `asp.math`, and `orient.point` is not an
attribute of `Vector`). -/
def Camera.rays (cam : CameraData) : Except PyErr (List RayData) := do
  let xSize := (cam.arraySize.1 : ℚ) * cam.pixelSize.1
  let ySize := (cam.arraySize.2 : ℚ) * cam.pixelSize.2
  let x := arange (-xSize / 2) (xSize / 2) cam.pixelSize.1
  let y := arange (-ySize / 2) (ySize / 2) cam.pixelSize.2
  let gridX := y.flatMap (fun _ => x)
  let gridY := y.flatMap (fun yv => x.map (fun _ => yv))
  let gridZ := y.flatMap (fun _ => x.map (fun _ => cam.focal))
  let XYZ : List (List ℚ) := [gridX, gridY, gridZ]
  XYZ.mapM (fun xyz => rayCallPointKeyword cam.orient.xyz xyz)

/-- The renderer assigns the intersection to the misspelled name
`interection_point` (render.py, line 25) and then reads
`intersection_point` (render.py, line 26), which is undefined and raises
`NameError`. -/
def undefinedIntersectionPointName : Except PyErr Point := .error .nameError

/-- Model of `np.asarray(image).reshape(array_size)`: a grid with the rows
of the flat list, failing with `ValueError` when the element count does not
match the requested shape. -/
def reshape (image : List ℤ) (size : Nat × Nat) :
    Except PyErr (List (List ℤ)) :=
  if image.length = size.1 * size.2 then
    .ok ((List.range size.1).map (fun r => (image.drop (r * size.2)).take size.2))
  else
    .error .valueError

/-- Model of `snapshot` (render.py, lines 5-30).  The call to `Camera.rays`
fails, so the loop, kept for structure, is unreachable; note that even it
appends one entry per ray and triangle pair rather than one per ray, and
performs no front-facing test on the ray parameter. -/
def snapshot (camera : CameraData) (triangles : List PlaneData) :
    Except PyErr (List (List ℤ)) := do
  let rays ← Camera.rays camera
  let image ← rays.foldlM (fun acc ray =>
    triangles.foldlM (fun acc2 triangle => do
      let _ip ← intersect ray triangle
      let ip2 ← undefinedIntersectionPointName
      let hit ← inside ip2 triangle
      return acc2 ++ [if hit then (1 : ℤ) else 0]) acc) ([] : List ℤ)
  reshape image camera.arraySize

/-- The end-to-end camera of the specification: at the origin, pointing
along positive z, focal length 1, a 1 by 1 detector of unit pixels. -/
def exampleCamera : CameraData :=
  ⟨⟨⟨0, 0, 0⟩, ⟨0, 0, 1⟩⟩, 1, (1, 1), (1, 1)⟩

/-- A 2 by 2 camera at the origin pointing along positive z. -/
def exampleCamera2 : CameraData :=
  ⟨⟨⟨0, 0, 0⟩, ⟨0, 0, 1⟩⟩, 1, (2, 2), (1, 1)⟩

/-- The end-to-end triangle of the specification, lying in the plane z = 5. -/
def exampleTriangle : PlaneData :=
  ⟨⟨⟨-10, -10, 5⟩⟩, ⟨⟨10, -10, 5⟩⟩, ⟨⟨0, 10, 5⟩⟩⟩

/-- A ray from the origin along positive z, straight at `exampleTriangle`. -/
def exampleRay : RayData := ⟨⟨0, 0, 0⟩, ⟨0, 0, 1⟩, 0⟩

/-- A ray along the x axis, exactly parallel to the plane z = 5. -/
def parallelRay : RayData := ⟨⟨1, 2, 3⟩, ⟨1, 0, 0⟩, 0⟩

/-- A small triangle whose vertex `p0` is the origin. -/
def unitTriangle : PlaneData := ⟨⟨⟨0, 0, 0⟩⟩, ⟨⟨1, 0, 0⟩⟩, ⟨⟨0, 1, 0⟩⟩⟩

/-- A concrete point. -/
def examplePoint : Point := ⟨⟨1, 2, 3⟩⟩

/-- A concrete list of four points. -/
def fourPoints : List Point :=
  [⟨⟨0, 0, 0⟩⟩, ⟨⟨1, 0, 0⟩⟩, ⟨⟨0, 1, 0⟩⟩, ⟨⟨0, 0, 1⟩⟩]

/-- A concrete list of three points. -/
def threePoints : List Point := [⟨⟨0, 0, 0⟩⟩, ⟨⟨1, 0, 0⟩⟩, ⟨⟨0, 1, 0⟩⟩]

/-- The unit x direction as vector fields. -/
def unitXVec : VectorData := ⟨⟨0, 0, 0⟩, ⟨1, 0, 0⟩⟩

/-- The unit y direction as vector fields. -/
def unitYVec : VectorData := ⟨⟨0, 0, 0⟩, ⟨0, 1, 0⟩⟩

/-- Evaluation of `Triangle.init`: a wrong point count raises `ValueError`
from the explicit length check, and a correct count still raises
`TypeError` from the unbound super call, so construction never succeeds. -/
theorem Triangle.init_eq (points : List Point) :
    Triangle.init points =
      if points.length = 3 then .error .typeError else .error .valueError := by
  by_cases h : points.length = 3 <;>
    simp [Triangle.init, superUnboundInitArgNonType, h] <;> rfl

/-- Claim C1: the specification states that `snapshot` returns a 0/1 grid
with the dimensions of the camera array, recording per pixel whether any
triangle yields a valid front-facing contained hit.  In the code every call
raises `TypeError` inside `Camera.rays`, so no grid is ever produced: at
the end-to-end example of the specification the result is the `TypeError`
outcome, not the grid `[[1]]`. -/
theorem C1_snapshot_raises :
    snapshot exampleCamera [exampleTriangle] = .error .typeError := rfl

/-- Claim C2: the specification states that `Camera.rays` returns exactly
nx times ny rays in pixel order.  In the code the comprehension iterates
over the 3-element list of raveled coordinate arrays and its first `Ray`
call passes the unexpected keyword `point`, so every call raises
`TypeError` and returns no rays at all: at a 2 by 2 camera the result is
the `TypeError` outcome, not a list of 4 rays. -/
theorem C2_rays_raise :
    Camera.rays exampleCamera2 = .error .typeError := rfl

/-- Claim C3: the specification states that for a non-parallel ray,
`intersect` returns p + t dir with t = (d - abc . p) / (abc . dir), a point
on the plane.  In the code the lookup of `get_coefficients` raises
`AttributeError` on every call, and the unreachable remainder divides by a
tuple and steps by the scalar d: at a ray aimed straight at the example
triangle the result is the `AttributeError` outcome, not a point. -/
theorem C3_intersect_raises :
    intersect exampleRay exampleTriangle = .error .attributeError := rfl

/-- Claim C4: the specification requires a ray exactly parallel to a plane
to yield a distinguishable no-intersection result, never a crash.
`parallelRay` is exactly parallel to `exampleTriangle` (its direction is
orthogonal to the plane normal), yet `intersect` raises `AttributeError` —
an escaping exception, with the parallel case never even reached. -/
theorem C4_parallel_intersect_crashes :
    Vec3.dot parallelRay.dir (Plane.normalDir exampleTriangle) = 0 ∧
    intersect parallelRay exampleTriangle = .error .attributeError :=
  ⟨by norm_num [Vec3.dot, Plane.normalDir, Vec3.cross, Vec3.sub3, parallelRay,
      exampleTriangle], rfl⟩

/-- Claim C5: the specification states that `inside` is true at the
triangle vertices and performs the three edge tests against the query
point.  In the code every call raises `TypeError` at its very first
statement `n = triangle.normal` (the property calls `Vector` with a single
argument, leaving its required `dir` parameter unbound), the unreachable
remainder would raise `NameError` in the reductions, and the query point is
never consulted: at a vertex of `unitTriangle` the result is the
`TypeError` outcome, not true. -/
theorem C5_inside_vertex_raises :
    inside unitTriangle.p0 unitTriangle = .error .typeError := rfl

/-- Claim C6: the specification states that `rotation_matrix a b` maps a
onto b and that `rotation_matrix a a` is the identity.  In the code the
first statement divides a `Vector` object by a float, an operation `Vector`
does not define, so every call raises `TypeError`: both at two orthogonal
unit vectors and at equal arguments the result is the `TypeError` outcome,
not a matrix. -/
theorem C6_rotation_matrix_raises :
    rotation_matrix unitXVec unitYVec = .error .typeError ∧
    rotation_matrix unitXVec unitXVec = .error .typeError := ⟨rfl, rfl⟩

/-- Claim C7: the specification states add([P]) = P, add([P, Q]) = P + Q
componentwise, and failure with an invalid-argument error on the empty
sequence.  In the code every non-empty reduction raises `NameError` (the
loop iterable `Points` is undefined) and the empty sequence raises
`IndexError` from `points[0]`: evaluated here at the singleton, the pair
and the empty list, for `add` and for `sub`. -/
theorem C7_add_raises :
    add [examplePoint] = .error .nameError ∧
    add [examplePoint, examplePoint] = .error .nameError ∧
    add ([] : List Point) = .error .indexError ∧
    sub [examplePoint, examplePoint] = .error .nameError ∧
    sub ([] : List Point) = .error .indexError := ⟨rfl, rfl, rfl, rfl, rfl⟩

/-- Claim C8: constructing a `Triangle` from a point list whose length is
not 3 fails with the invalid-argument error (`ValueError` in the code), and
a construction can succeed only for exactly 3 points.  In fact construction
never succeeds at all (the super call fails afterwards), which makes the
only-if direction hold a fortiori. -/
theorem C8_triangle_requires_three_points (points : List Point) :
    (points.length ≠ 3 → Triangle.init points = .error .valueError) ∧
    (∀ t : TriangleData, Triangle.init points = .ok t → points.length = 3) := by
  constructor
  · intro h
    rw [Triangle.init_eq]
    simp [h]
  · intro t h
    rw [Triangle.init_eq] at h
    by_cases h3 : points.length = 3
    · exact h3
    · simp [h3] at h

/-- Witness for claim C8 at the concrete 4-point list. -/
theorem C8_triangle_requires_three_points_witness :
    Triangle.init fourPoints = .error .valueError :=
  (C8_triangle_requires_three_points fourPoints).1 (by decide)

/-- Claim C9: no constructor of `Vector`, of `Ray`, or (given exactly 3
points) of `Triangle` ever completes: the unbound super call raises
`TypeError` instead of delegating to the parent initializer, so
construction fails and no fully initialized object is produced. -/
theorem C9_constructors_never_complete (xyz dir : Vec3) (value : ℚ)
    (points : List Point) :
    Vector.init xyz dir = .error .typeError ∧
    Ray.init xyz dir value = .error .typeError ∧
    (points.length = 3 → Triangle.init points = .error .typeError) := by
  refine ⟨rfl, rfl, fun h => ?_⟩
  rw [Triangle.init_eq]
  simp [h]

/-- Witness for claim C9 at concrete coordinates and the concrete 3-point
list. -/
theorem C9_constructors_never_complete_witness :
    Vector.init ⟨0, 0, 0⟩ ⟨0, 0, 1⟩ = .error .typeError ∧
    Ray.init ⟨0, 0, 0⟩ ⟨0, 0, 1⟩ 0 = .error .typeError ∧
    Triangle.init threePoints = .error .typeError := by
  have h := C9_constructors_never_complete ⟨0, 0, 0⟩ ⟨0, 0, 1⟩ 0 threePoints
  exact ⟨h.1, h.2.1, h.2.2 (by decide)⟩

/-- Claim C10: the containment test ignores its query point entirely — for
any triangle and any two query points, `inside` returns the same outcome,
because only the triangle vertices occur in its body. -/
theorem C10_inside_independent_of_point (t : PlaneData) (p q : Point) :
    inside p t = inside q t := rfl

end Asp
